import Mathlib

/-!
Verification of the client-side voice interaction subsystem of the
housing-authority-assistant repository: audio capture (useVoice.startRecording,
useVoice.stopRecording), playback (useVoice.playAudio, useVoice.stopPlayback,
VoicePlayback.handlePause), visualization (VoiceWaveform.drawWaveform), the
voice-turn controllers (HybridVoiceAgent.processVoiceMessage, the Chat/Home
voice-upload fallback) and the REST client wrappers (lib/api).

Each definition is a direct shallow embedding of the corresponding TypeScript
function; browser effects (getUserMedia, RecordRTC construction, fetch,
HTMLAudioElement.play) are passed in as explicit environment values describing
their outcome, and the mutable refs/React state of the hooks become fields of
an explicit state record.
-/

set_option autoImplicit false

namespace HousingVoice

/-! ## Visualization Renderer: VoiceWaveform.tsx -/

/-- Rendering modes of VoiceWaveform.drawWaveform: mode prop
`'bars' | 'circle' | 'line' | 'orb'`. -/
inductive WaveMode
  | orb
  | circle
  | bars
  | line
deriving DecidableEq, Repr

/-- Size classes of VoiceWaveform: size prop `'small' | 'medium' | 'large'`. -/
inductive SizeClass
  | small
  | medium
  | large
deriving DecidableEq, Repr

/-- sizeConfig barCount: small 12, medium 20, large 32 (VoiceWaveform.tsx,
sizeConfig). -/
def barCount : SizeClass → Nat
  | SizeClass.small => 12
  | SizeClass.medium => 20
  | SizeClass.large => 32

/-- The bin-index mapping of drawWaveform:
`Math.floor(i * frequencyData.length / barCount)` (circle and bars modes) and
`Math.floor(i * frequencyData.length / points)` (line mode).  All quantities
are non-negative so JS floor division is Nat division. -/
def dataIndex (i binCount targetCount : Nat) : Nat :=
  i * binCount / targetCount

/-- The list of frequency-bin indices drawWaveform reads when frequencyData
(of length binCount) is present, per mode: orb reads no bins; circle and bars
read one bin per bar (config.barCount bars); line reads one bin per point
(points = 64). -/
def binIndicesUsed (m : WaveMode) (sz : SizeClass) (binCount : Nat) : List Nat :=
  match m with
  | WaveMode.orb => []
  | WaveMode.circle => (List.range (barCount sz)).map (fun i => dataIndex i binCount (barCount sz))
  | WaveMode.bars => (List.range (barCount sz)).map (fun i => dataIndex i binCount (barCount sz))
  | WaveMode.line => (List.range 64).map (fun i => dataIndex i binCount 64)

/-- Orb-mode geometry (VoiceWaveform.tsx lines 54-57):
`baseRadius = Math.min(width, height) * 0.15`. -/
def baseRadius (width height : ℚ) : ℚ :=
  min width height * (15 / 100)

/-- Orb-mode geometry: `pulseRadius = baseRadius + (audioLevel * 20)`. -/
def pulseRadius (base audioLevel : ℚ) : ℚ :=
  base + audioLevel * 20

/-! ## Capture / Playback engine: ui/lib/hooks/useVoice.ts

The hook's React state (voiceState, audioLevel, error, settings) and refs
(mediaRecorderRef, streamRef, audioElementRef, recordingStartTimeRef) become
fields of `UseVoiceState`.  Browser-side outcomes (getUserMedia, the dynamic
RecordRTC import and construction, getBlob, audio.play) are supplied as
explicit environment records.  Object URLs handed out by URL.createObjectURL
are numbered; `liveUrls` holds the ones created and not yet revoked, and
`micOpen` holds the ids of the microphone tracks acquired via getUserMedia
that have not been stopped (the OS microphone-busy indicator is lit exactly
while `micOpen` is non-empty). -/

/-- VoiceMode: 'push-to-talk' | 'continuous' | 'disabled'. -/
inductive VoiceMode
  | pushToTalk
  | continuous
  | disabled
deriving DecidableEq, Repr

/-- VoiceState: 'idle' | 'recording' | 'processing' | 'playing' | 'error'. -/
inductive VState
  | idle
  | recording
  | processing
  | playing
  | error
deriving DecidableEq, Repr

/-- VoiceSettings of useVoice (userId / conversationId omitted: optional
metadata only forwarded to saveRecording). -/
structure VoiceSettings where
  mode : VoiceMode
  volume : ℚ
  enableVoiceActivity : Bool
  selectedVoice : String
  autoPlayResponses : Bool
  noiseSuppressionLevel : ℚ
  saveRecordings : Bool
deriving DecidableEq, Repr

/-- A Partial VoiceSettings value as passed to updateSettings: present fields
override, absent ones are kept (object-spread semantics of
`setSettings(prev => ({ ...prev, ...newSettings }))`). -/
structure SettingsPatch where
  mode : Option VoiceMode := none
  volume : Option ℚ := none
  enableVoiceActivity : Option Bool := none
  selectedVoice : Option String := none
  autoPlayResponses : Option Bool := none
  noiseSuppressionLevel : Option ℚ := none
  saveRecordings : Option Bool := none
deriving DecidableEq, Repr

/-- Object-spread merge `{ ...prev, ...newSettings }`. -/
def applyPatch (p : SettingsPatch) (v : VoiceSettings) : VoiceSettings :=
  { mode := p.mode.getD v.mode
    volume := p.volume.getD v.volume
    enableVoiceActivity := p.enableVoiceActivity.getD v.enableVoiceActivity
    selectedVoice := p.selectedVoice.getD v.selectedVoice
    autoPlayResponses := p.autoPlayResponses.getD v.autoPlayResponses
    noiseSuppressionLevel := p.noiseSuppressionLevel.getD v.noiseSuppressionLevel
    saveRecordings := p.saveRecordings.getD v.saveRecordings }

/-- A MediaStream as returned by getUserMedia: its audio tracks, by id. -/
structure MediaStream where
  trackIds : List Nat
deriving DecidableEq, Repr

/-- The RecordRTC recorder instance held in mediaRecorderRef. -/
structure Recorder where
  rid : Nat
  recording : Bool
deriving DecidableEq, Repr

/-- The src attribute of an HTMLAudioElement as set by playAudio: a base64
data: URL for string payloads, an object URL for blob payloads. -/
inductive AudioSrc
  | emptySrc
  | dataUrl (b64 : String)
  | objectUrl (u : Nat)
deriving DecidableEq, Repr

/-- The HTMLAudioElement held in audioElementRef. -/
structure AudioElem where
  src : AudioSrc
  volume : ℚ
  currentTime : ℚ
  paused : Bool
deriving DecidableEq, Repr

/-- An audio payload passed to playAudio: `string | Blob` (blobs numbered). -/
inductive AudioPayload
  | b64 (s : String)
  | blobData (b : Nat)
deriving DecidableEq, Repr

/-- The state of one useVoice hook instance. -/
structure UseVoiceState where
  voiceState : VState
  audioLevel : ℚ
  error : Option String
  settings : VoiceSettings
  mediaRecorder : Option Recorder
  stream : Option MediaStream
  audioElem : Option AudioElem
  /-- audioData captured by the onended closure installed by the last
  playAudio call (used there to decide whether to revoke audio.src). -/
  lastPayload : Option AudioPayload
  recordingStart : Option Nat
  /-- Object URLs created by URL.createObjectURL and not yet revoked. -/
  liveUrls : List Nat
  nextUrl : Nat
  /-- Ids of microphone tracks acquired by getUserMedia and not stopped. -/
  micOpen : List Nat
deriving DecidableEq, Repr

/-- Outcomes of the suspension points of startRecording. -/
structure StartEnv where
  /-- isClient, window and navigator.mediaDevices all available. -/
  supported : Bool
  /-- getUserMedia result; none means the promise rejected. -/
  gum : Option MediaStream
  /-- Dynamic RecordRTC import plus construction; none means it threw,
  some rid is the id of the freshly constructed recorder. -/
  rtc : Option Nat
  /-- Date.now() at the start of recording. -/
  now : Nat
deriving DecidableEq, Repr

/-- useVoice.startRecording (useVoice.ts lines 125-175).  The guard only
checks environment support; the body sets error null and voiceState
'recording', initializes the audio context, awaits getUserMedia (assigning
streamRef on success), constructs a RecordRTC recorder and starts it; the
catch block sets the error string and voiceState 'error' and stops nothing. -/
def startRecording (env : StartEnv) (s : UseVoiceState) : UseVoiceState :=
  if !env.supported then
    { s with error := some "Recording not supported in this environment" }
  else
    let s1 := { s with error := none, voiceState := VState.recording }
    match env.gum with
    | none =>
        { s1 with error := some "Microphone access denied or not available",
                  voiceState := VState.error }
    | some st =>
        let s2 := { s1 with stream := some st, micOpen := s1.micOpen ++ st.trackIds }
        match env.rtc with
        | none =>
            { s2 with error := some "Microphone access denied or not available",
                      voiceState := VState.error }
        | some rid =>
            { s2 with mediaRecorder := some { rid := rid, recording := true },
                      recordingStart := some env.now }

/-- Outcomes of the suspension points of stopRecording. -/
structure StopEnv where
  /-- mediaRecorderRef.current?.getBlob(): the recorded blob id, or none. -/
  blob : Option Nat
  /-- Date.now() inside the stopRecording callback. -/
  now : Nat
deriving DecidableEq, Repr

/-- The VoiceData value resolved by stopRecording. -/
structure VoiceData where
  audioBlob : Nat
deriving DecidableEq, Repr

/-- useVoice.stopRecording (useVoice.ts lines 178-230).  With no recorder it
resolves null before touching any state.  Otherwise it sets voiceState
'processing', and in the recorder's stop callback reads the blob, stops every
track of streamRef and clears it, clears the animation frame and start time,
resets audioLevel and voiceState 'idle', and resolves the blob (saveRecording
upload, when enabled, is fire-and-caught and changes no hook state). -/
def stopRecording (env : StopEnv) (s : UseVoiceState) :
    Option VoiceData × UseVoiceState :=
  match s.mediaRecorder with
  | none => (none, s)
  | some _ =>
      let s1 := { s with voiceState := VState.processing }
      let s2 :=
        match s1.stream with
        | some st =>
            { s1 with stream := none,
                      micOpen := s1.micOpen.filter (fun t => !st.trackIds.contains t) }
        | none => s1
      let s3 := { s2 with recordingStart := none, audioLevel := 0,
                          voiceState := VState.idle }
      match env.blob with
      | some b => (some { audioBlob := b }, s3)
      | none => (none, s3)

/-- Outcomes of the suspension points of playAudio. -/
structure PlayEnv where
  /-- isClient and window available. -/
  supported : Bool
  /-- audio.play() resolved (true) or rejected (false). -/
  playOk : Bool
deriving DecidableEq, Repr

/-- useVoice.playAudio (useVoice.ts lines 233-275).  Sets voiceState
'playing' and error null, lazily creates the audio element, sets audio.src
(a data: URL for base64 strings, URL.createObjectURL for blobs — the previous
src is merely overwritten, never revoked here), sets audio.volume to
settings.volume/100, installs onended/onerror handlers capturing the payload,
and awaits audio.play; a rejected play is caught with error
"Audio playback failed" and voiceState 'error'. -/
def playAudio (env : PlayEnv) (payload : AudioPayload) (s : UseVoiceState) :
    UseVoiceState :=
  if !env.supported then s
  else
    let s1 := { s with voiceState := VState.playing, error := none }
    let a0 : AudioElem := s1.audioElem.getD
      { src := AudioSrc.emptySrc, volume := 1, currentTime := 0, paused := true }
    let withSrc : AudioElem × UseVoiceState :=
      match payload with
      | AudioPayload.b64 str => ({ a0 with src := AudioSrc.dataUrl str }, s1)
      | AudioPayload.blobData _ =>
          let u := s1.nextUrl
          ({ a0 with src := AudioSrc.objectUrl u },
           { s1 with nextUrl := u + 1, liveUrls := s1.liveUrls ++ [u] })
    let a1 := { withSrc.1 with volume := s.settings.volume / 100 }
    let s2 := { withSrc.2 with audioElem := some a1, lastPayload := some payload }
    if env.playOk then
      { s2 with audioElem := some { a1 with paused := false } }
    else
      { s2 with error := some "Audio playback failed", voiceState := VState.error }

/-- The audio.onended handler installed by playAudio: sets voiceState 'idle'
and, when the captured audioData was a Blob, revokes the current audio.src
object URL. -/
def fireEnded (s : UseVoiceState) : UseVoiceState :=
  match s.audioElem, s.lastPayload with
  | some a, some payload =>
      let a1 := { a with paused := true }
      let s1 := { s with voiceState := VState.idle, audioElem := some a1 }
      match payload with
      | AudioPayload.blobData _ =>
          match a.src with
          | AudioSrc.objectUrl u =>
              { s1 with liveUrls := s1.liveUrls.filter (fun v => v ≠ u) }
          | _ => s1
      | AudioPayload.b64 _ => s1
  | _, _ => s

/-- useVoice.stopPlayback (useVoice.ts lines 278-284): with an audio element
present, pauses it, resets currentTime to 0 and sets voiceState 'idle';
nothing is revoked. -/
def stopPlayback (s : UseVoiceState) : UseVoiceState :=
  match s.audioElem with
  | none => s
  | some a =>
      { s with audioElem := some { a with paused := true, currentTime := 0 },
               voiceState := VState.idle }

/-- useVoice.updateSettings (useVoice.ts lines 328-330):
`setSettings(prev => ({ ...prev, ...newSettings }))` — it touches nothing but
the settings record. -/
def updateSettings (p : SettingsPatch) (s : UseVoiceState) : UseVoiceState :=
  { s with settings := applyPatch p s.settings }

/-- Default settings of the hook (useVoice.ts lines 67-75). -/
def defaultSettings : VoiceSettings :=
  { mode := VoiceMode.pushToTalk
    volume := 80
    enableVoiceActivity := true
    selectedVoice := "Rachel"
    autoPlayResponses := true
    noiseSuppressionLevel := 7 / 10
    saveRecordings := true }

/-- Initial hook state (useVoice.ts lines 57-85): idle, level 0, no error,
default settings, all refs null. -/
def initialState : UseVoiceState :=
  { voiceState := VState.idle
    audioLevel := 0
    error := none
    settings := defaultSettings
    mediaRecorder := none
    stream := none
    audioElem := none
    lastPayload := none
    recordingStart := none
    liveUrls := []
    nextUrl := 0
    micOpen := [] }

/-! ## VoicePlayback component (bundled in VoiceMicrophone.tsx)

The per-message playback widget keeps its own audio element in audioRef and
mirrors the playing flag in internalPlaying.  pause() on an HTMLMediaElement
that is already paused is a no-op and fires no pause event; otherwise it sets
paused and fires the pause event, whose listener here sets internalPlaying
false.  handlePause additionally invokes the optional onPause prop, which no
caller in this repository supplies (Chat and RecordingsManager render
VoicePlayback without it), so it is a no-op. -/

/-- Component state of VoicePlayback. -/
structure PlaybackState where
  audioRef : Option AudioElem
  internalPlaying : Bool
  currentTime : ℚ
deriving DecidableEq, Repr

/-- VoicePlayback.handlePause: return if audioRef is null, else call
audioRef.current.pause() (and the absent onPause prop). -/
def handlePause (s : PlaybackState) : PlaybackState :=
  match s.audioRef with
  | none => s
  | some a =>
      if a.paused then s
      else { s with audioRef := some { a with paused := true },
                    internalPlaying := false }

/-- True when the widget's playback is already paused (no element loaded, or
the loaded element's paused flag is set). -/
def pausedState (s : PlaybackState) : Bool :=
  match s.audioRef with
  | none => true
  | some a => a.paused

/-! ## Voice Session Controller: HybridVoiceAgent.tsx -/

/-- Component state of HybridVoiceAgent. -/
structure HybridState where
  isRecording : Bool
  isProcessing : Bool
  isPlaying : Bool
  currentAgent : String
  volume : ℚ
  error : Option String
  conversationId : Option String
deriving DecidableEq, Repr

/-- Outcome of one fetch call: the promise rejected, or a response with its
ok flag and a parsed JSON body. -/
inductive FetchOutcome (α : Type)
  | netErr
  | resp (ok : Bool) (body : α)
deriving DecidableEq, Repr

/-- Body of the /voice/agent-chat response, as read by processVoiceMessage. -/
structure AgentChatBody where
  success : Bool
  current_agent : String
  conversation_id : String
  audio_base64 : Option String
  /-- Optional message field used for the thrown error when success is
  false. -/
  message : Option String
deriving DecidableEq, Repr

/-- Outcomes of the suspension points of processVoiceMessage.  The
transcription body is the optional transcript field of the parsed JSON
(none when the field is absent). -/
structure PVMEnv where
  stt : FetchOutcome (Option String)
  chat : FetchOutcome AgentChatBody
  playOk : Bool
deriving DecidableEq, Repr

/-- The catch block of processVoiceMessage (HybridVoiceAgent.tsx lines
220-228): error "Failed to process voice message", isProcessing false. -/
def pvmCatch (s : HybridState) : HybridState :=
  { s with error := some "Failed to process voice message", isProcessing := false }

/-- HybridVoiceAgent.playAudioResponse (lines 232-265): sets isPlaying,
loads the base64 payload into its audio element at volume state.volume/100
and awaits play; a rejected play is caught with error "Audio playback
failed" and isPlaying false. -/
def playAudioResponse (playOk : Bool) (s : HybridState) : HybridState :=
  if playOk then { s with isPlaying := true }
  else { s with isPlaying := false, error := some "Audio playback failed" }

/-- HybridVoiceAgent.processVoiceMessage (lines 154-229) applied to an audio
blob.  Returns the resulting state and whether the /voice/agent-chat endpoint
was called.  A falsy transcript (absent field or empty string) throws
"Failed to transcribe audio" BEFORE the chat call, landing in the catch
block; a successful agent response updates currentAgent / conversationId /
isProcessing and plays any audio_base64. -/
def processVoiceMessage (env : PVMEnv) (s : HybridState) : HybridState × Bool :=
  match env.stt with
  | FetchOutcome.netErr => (pvmCatch s, false)
  | FetchOutcome.resp ok body =>
      if !ok then (pvmCatch s, false)
      else
        match body with
        | none => (pvmCatch s, false)
        | some t =>
            if t = "" then (pvmCatch s, false)
            else
              match env.chat with
              | FetchOutcome.netErr => (pvmCatch s, true)
              | FetchOutcome.resp _ agentData =>
                  if agentData.success then
                    let s1 := { s with
                      currentAgent := agentData.current_agent,
                      conversationId := some agentData.conversation_id,
                      isProcessing := false }
                    match agentData.audio_base64 with
                    | some _ => (playAudioResponse env.playOk s1, true)
                    | none => (s1, true)
                  else (pvmCatch s, true)

/-! ## Chat / Home voice-upload fallback

Home.handleVoiceUpload (and the identical fallback branch of
Chat.handleVoiceRecording) calls uploadAudio and forwards the transcript to
the chat endpoint only under the JS-truthiness guard
`if (response && response.transcript)`: a null response, an absent transcript
field, or an empty-string transcript all skip the chat call silently (a
console.error only, no error state is set). -/

/-- Result of uploadAudio as observed by the guard: null, or a JSON body
whose transcript field may be absent. -/
inductive UploadResult
  | nullResult
  | jsonResult (transcript : Option String)
deriving DecidableEq, Repr

/-- Whether Home.handleVoiceUpload / the Chat.handleVoiceRecording fallback
forwards a transcript to the chat endpoint (the JS-truthiness guard). -/
def sendsTranscript : UploadResult → Bool
  | UploadResult.nullResult => false
  | UploadResult.jsonResult none => false
  | UploadResult.jsonResult (some t) => !(t = "")

/-! ## REST client wrappers: ui/lib/api.ts

Every wrapper has the shape
`try { const res = await fetch(...); if (!res.ok) throw ...; return res.json(); }
 catch (err) { return null; }`
(listRecordings returns [] in its catch instead).  Because `res.json()` is
RETURNED without await from inside the try block, a rejection of the JSON
body parse of a 2xx response is adopted by the async function's result
promise after the try/catch has been exited, so it is NOT caught: the
wrapper's promise rejects to the caller in that case. -/

/-- Parse outcome of res.json(): the body failed to parse, or yielded a JSON
value (values numbered abstractly). -/
inductive JsonBody
  | malformed
  | wellFormed (v : Nat)
deriving DecidableEq, Repr

/-- One run of fetch as seen by a wrapper: the fetch promise rejected, or a
response arrived with its ok flag and body. -/
inductive FetchRun
  | throws
  | returns (ok : Bool) (body : JsonBody)
deriving DecidableEq, Repr

/-- What the caller of a wrapper observes. -/
inductive CallOutcome
  | retNull
  | retEmptyList
  | retJson (v : Nat)
  | rejects
deriving DecidableEq, Repr

/-- Shared run of callChatAPI, synthesizeVoice, getVoiceInfo, uploadAudio,
saveRecording, getRecording, deleteRecording, getElevenLabsConfig and
getElevenLabsSignedUrl (lib/api.ts): all nine differ only in URL and request
construction; the control flow around fetch is identical. -/
def apiHelperRun : FetchRun → CallOutcome
  | FetchRun.throws => CallOutcome.retNull
  | FetchRun.returns ok body =>
      if !ok then CallOutcome.retNull
      else
        match body with
        | JsonBody.malformed => CallOutcome.rejects
        | JsonBody.wellFormed v => CallOutcome.retJson v

/-- Run of listRecordings (lib/api.ts lines 126-144): identical control flow
but its catch returns the empty array. -/
def listRecordingsRun : FetchRun → CallOutcome
  | FetchRun.throws => CallOutcome.retEmptyList
  | FetchRun.returns ok body =>
      if !ok then CallOutcome.retEmptyList
      else
        match body with
        | JsonBody.malformed => CallOutcome.rejects
        | JsonBody.wellFormed v => CallOutcome.retJson v

/-! ## Concrete fixtures used by witnesses and counterexamples -/

/-- Play environment: client-side, audio.play resolves. -/
def cPlayEnv : PlayEnv := { supported := true, playOk := true }

/-- Hook state mid-recording: recorder 0 running, stream with track 3 open. -/
def recordingState : UseVoiceState :=
  { initialState with
      voiceState := VState.recording
      mediaRecorder := some { rid := 0, recording := true }
      stream := some { trackIds := [3] }
      micOpen := [3]
      recordingStart := some 100 }

/-- Start environment: supported, getUserMedia yields track 5, RecordRTC
construction succeeds as recorder 1. -/
def cStartEnv : StartEnv :=
  { supported := true, gum := some { trackIds := [5] }, rtc := some 1, now := 200 }

/-- Start environment in which getUserMedia succeeds (track 7) but the
dynamic RecordRTC import / construction throws. -/
def rtcFailEnv : StartEnv :=
  { supported := true, gum := some { trackIds := [7] }, rtc := none, now := 0 }

/-- Stop environment: getBlob yields blob 9. -/
def cStopEnv : StopEnv := { blob := some 9, now := 300 }

/-- HybridVoiceAgent state while processing a voice turn. -/
def hybridProcessing : HybridState :=
  { isRecording := false
    isProcessing := true
    isPlaying := false
    currentAgent := "Triage Agent"
    volume := 80
    error := none
    conversationId := none }

/-- Voice-turn environment in which transcription succeeds but returns the
empty transcript. -/
def emptyTranscriptEnv : PVMEnv :=
  { stt := FetchOutcome.resp true (some "")
    chat := FetchOutcome.resp true
      { success := true
        current_agent := "Triage Agent"
        conversation_id := "c1"
        audio_base64 := none
        message := none }
    playOk := true }

/-- VoicePlayback widget state whose audio element is already paused. -/
def pausedPlayback : PlaybackState :=
  { audioRef := some
      { src := AudioSrc.emptySrc, volume := 4 / 5, currentTime := 5, paused := true }
    internalPlaying := false
    currentTime := 5 }

/-- Hook state playing a blob-backed payload through object URL 0. -/
def playingBlobState : UseVoiceState :=
  { initialState with
      voiceState := VState.playing
      audioElem := some
        { src := AudioSrc.objectUrl 0, volume := 4 / 5, currentTime := 2, paused := false }
      lastPayload := some (AudioPayload.blobData 5)
      liveUrls := [0]
      nextUrl := 1 }

/-! ## Theorems for claims C3 and C7 -/

theorem dataIndex_lt {i binCount targetCount : Nat} (hB : 1 ≤ binCount)
    (hi : i < targetCount) : dataIndex i binCount targetCount < binCount := by
  have ht : 0 < targetCount := Nat.lt_of_le_of_lt (Nat.zero_le i) hi
  unfold dataIndex
  rw [Nat.div_lt_iff_lt_mul ht]
  calc i * binCount < targetCount * binCount :=
        Nat.mul_lt_mul_of_lt_of_le hi (Nat.le_refl _) (Nat.lt_of_lt_of_le Nat.zero_lt_one hB)
    _ = binCount * targetCount := Nat.mul_comm _ _

/-- C3: for every frequency-bin array of length B >= 1 and every target
bar/point count N >= 1, the drawWaveform index mapping floor(i*B/N) computed
for each i in [0,N) yields an index in [0,B); consequently every bin index
actually read in any of the four rendering modes (orb, circle, bars, line) at
any size class is in bounds. -/
theorem drawWaveform_bin_access_in_bounds (B N i : Nat) (hB : 1 ≤ B) (hN : 1 ≤ N)
    (hi : i < N) :
    dataIndex i B N < B ∧
      ∀ (m : WaveMode) (sz : SizeClass), ∀ j ∈ binIndicesUsed m sz B, j < B := by
  refine ⟨dataIndex_lt hB hi, ?_⟩
  intro m sz j hj
  cases m <;> simp only [binIndicesUsed, List.mem_map, List.mem_range] at hj
  · exact absurd hj (List.not_mem_nil j)
  · obtain ⟨k, hk, rfl⟩ := hj
    exact dataIndex_lt hB hk
  · obtain ⟨k, hk, rfl⟩ := hj
    exact dataIndex_lt hB hk
  · obtain ⟨k, hk, rfl⟩ := hj
    exact dataIndex_lt hB hk

theorem drawWaveform_bin_access_in_bounds_witness :
    1 ≤ 128 ∧ 1 ≤ 20 ∧ 7 < 20 ∧
      (dataIndex 7 128 20 < 128 ∧
        ∀ (m : WaveMode) (sz : SizeClass), ∀ j ∈ binIndicesUsed m sz 128, j < 128) :=
  ⟨by decide, by decide, by decide,
    drawWaveform_bin_access_in_bounds 128 20 7 (by decide) (by decide) (by decide)⟩

/-- C7: for all amplitude inputs in [0,1], the PulsingOrb rendered radius
(pulseRadius = base + amplitude * 20, a non-negative scale) is non-decreasing
in the amplitude and never strictly below the base radius. -/
theorem pulseRadius_monotone_and_ge_base (base a1 a2 : ℚ) (h0 : 0 ≤ a1)
    (h12 : a1 ≤ a2) (h1 : a2 ≤ 1) :
    pulseRadius base a1 ≤ pulseRadius base a2 ∧ base ≤ pulseRadius base a1 := by
  constructor
  · unfold pulseRadius
    have : a1 * 20 ≤ a2 * 20 := by
      apply mul_le_mul_of_nonneg_right h12
      norm_num
    linarith
  · unfold pulseRadius
    have : 0 ≤ a1 * 20 := by
      apply mul_nonneg h0
      norm_num
    linarith

theorem pulseRadius_monotone_and_ge_base_witness :
    (0 : ℚ) ≤ 1 / 4 ∧ (1 / 4 : ℚ) ≤ 3 / 4 ∧ (3 / 4 : ℚ) ≤ 1 ∧
      (pulseRadius 9 (1 / 4) ≤ pulseRadius 9 (3 / 4) ∧ (9 : ℚ) ≤ pulseRadius 9 (1 / 4)) :=
  ⟨by norm_num, by norm_num, by norm_num,
    pulseRadius_monotone_and_ge_base 9 (1 / 4) (3 / 4) (by norm_num) (by norm_num) (by norm_num)⟩

/-! ## Claim C1: start while recording -/

/-- C1 counterexample: from a state that is already recording (recorder 0
active), startRecording is NOT rejected — the result carries no error at all
(in particular no AlreadyRecording), and the existing session's recorder is
replaced rather than left unchanged.  This refutes the claim that a second
start is rejected with AlreadyRecording leaving the recorder untouched. -/
theorem startRecording_while_recording_not_rejected :
    (startRecording cStartEnv recordingState).error = none ∧
      (startRecording cStartEnv recordingState).mediaRecorder ≠
        recordingState.mediaRecorder := by
  constructor
  · rfl
  · decide

/-- C1 amended: useVoice.startRecording contains no already-recording guard
(no AlreadyRecording error exists in the code).  Invoked while a recording is
in progress, with stream acquisition and recorder construction succeeding, it
returns no error, stays in the recording state, overwrites mediaRecorderRef
with the fresh recorder and streamRef with the fresh stream, and leaves every
track of the previous stream unstopped (the single-session invariant is
enforced only by UI callers such as VoiceMicrophone.handleMouseDown, which
requires isRecording to be false). -/
theorem startRecording_replaces_session (env : StartEnv) (s : UseVoiceState)
    (st : MediaStream) (rid : Nat) (hrec : s.voiceState = VState.recording)
    (hsup : env.supported = true) (hgum : env.gum = some st)
    (hrtc : env.rtc = some rid) :
    (startRecording env s).error = none ∧
      (startRecording env s).voiceState = VState.recording ∧
      (startRecording env s).mediaRecorder = some { rid := rid, recording := true } ∧
      (startRecording env s).stream = some st ∧
      (startRecording env s).micOpen = s.micOpen ++ st.trackIds := by
  simp [startRecording, hsup, hgum, hrtc]

theorem startRecording_replaces_session_witness :
    recordingState.voiceState = VState.recording ∧
      cStartEnv.supported = true ∧
      cStartEnv.gum = some { trackIds := [5] } ∧
      cStartEnv.rtc = some 1 ∧
      ((startRecording cStartEnv recordingState).error = none ∧
        (startRecording cStartEnv recordingState).voiceState = VState.recording ∧
        (startRecording cStartEnv recordingState).mediaRecorder =
          some { rid := 1, recording := true } ∧
        (startRecording cStartEnv recordingState).stream = some { trackIds := [5] } ∧
        (startRecording cStartEnv recordingState).micOpen =
          recordingState.micOpen ++ [5]) :=
  ⟨rfl, rfl, rfl, rfl,
    startRecording_replaces_session cStartEnv recordingState { trackIds := [5] } 1
      rfl rfl rfl rfl⟩

/-! ## Claim C2: empty transcript -/

/-- C2 counterexample: in HybridVoiceAgent.processVoiceMessage, a successful
transcription whose transcript is the empty string does NOT return silently —
the falsy-transcript check throws, the catch block runs, and the resulting
state carries the error "Failed to process voice message" (the Error state),
refuting the claim that the Controller returns directly to Idle without
entering the Error state (the chat endpoint is indeed not called). -/
theorem processVoiceMessage_empty_transcript_errors :
    (processVoiceMessage emptyTranscriptEnv hybridProcessing).1.error ≠ none ∧
      (processVoiceMessage emptyTranscriptEnv hybridProcessing).1.error =
        some "Failed to process voice message" ∧
      (processVoiceMessage emptyTranscriptEnv hybridProcessing).2 = false := by
  refine ⟨?_, rfl, rfl⟩
  decide

/-- C2 amended: on a voice turn whose transcription succeeds with an empty
transcript, neither controller calls the chat/agent endpoint, but they
diverge on the rest: HybridVoiceAgent.processVoiceMessage lands in its catch
block — error "Failed to process voice message", isProcessing false — i.e.
it enters the Error state instead of returning silently, while the Chat/Home
voice-upload fallback (handleVoiceUpload / handleVoiceRecording) skips the
chat call silently, setting no error. -/
theorem empty_transcript_behavior (env : PVMEnv) (s : HybridState)
    (hstt : env.stt = FetchOutcome.resp true (some "")) :
    (processVoiceMessage env s).2 = false ∧
      (processVoiceMessage env s).1 = pvmCatch s ∧
      sendsTranscript (UploadResult.jsonResult (some "")) = false := by
  refine ⟨?_, ?_, rfl⟩ <;> simp [processVoiceMessage, hstt]

theorem empty_transcript_behavior_witness :
    emptyTranscriptEnv.stt = FetchOutcome.resp true (some "") ∧
      ((processVoiceMessage emptyTranscriptEnv hybridProcessing).2 = false ∧
        (processVoiceMessage emptyTranscriptEnv hybridProcessing).1 =
          pvmCatch hybridProcessing ∧
        sendsTranscript (UploadResult.jsonResult (some "")) = false) :=
  ⟨rfl, empty_transcript_behavior emptyTranscriptEnv hybridProcessing rfl⟩

/-! ## Claim C4: blob URL release -/

/-- C4 counterexample: play a blob payload from the initial state (object
URL 0 is created), then discard it with the explicit stop (stopPlayback).
The payload is discarded — playback stopped, position reset, state idle —
yet object URL 0 is still live: the temporary URL is NOT revoked on explicit
stop-and-discard, refuting the claim that every discard path revokes it. -/
theorem stopPlayback_leaves_dangling_url :
    (stopPlayback (playAudio cPlayEnv (AudioPayload.blobData 0) initialState)).liveUrls
        = [0] ∧
      (stopPlayback (playAudio cPlayEnv (AudioPayload.blobData 0) initialState)).voiceState
        = VState.idle := by
  constructor <;> rfl

/-- C4 amended: the Playback Engine revokes a blob payload's object URL only
on the successful-end path: the onended handler revokes the current audio.src
when the captured payload was a blob (and returns to idle).  The other two
discard paths leak: stopPlayback never changes the set of live object URLs,
and loading a replacement payload through playAudio keeps every previously
created URL live (it only overwrites audio.src). -/
theorem blobUrl_revoked_only_on_ended (s : UseVoiceState) (env : PlayEnv)
    (p : AudioPayload) (a : AudioElem) (u b : Nat) :
    (s.audioElem = some a → a.src = AudioSrc.objectUrl u →
        s.lastPayload = some (AudioPayload.blobData b) →
        (fireEnded s).liveUrls = s.liveUrls.filter (fun v => v ≠ u) ∧
          (fireEnded s).voiceState = VState.idle) ∧
      (stopPlayback s).liveUrls = s.liveUrls ∧
      (u ∈ s.liveUrls → u ∈ (playAudio env p s).liveUrls) := by
  refine ⟨?_, ?_, ?_⟩
  · intro h1 h2 h3
    simp [fireEnded, h1, h3, h2]
  · cases h : s.audioElem <;> simp [stopPlayback, h]
  · intro hu
    cases hsup : env.supported
    · simp [playAudio, hsup, hu]
    · cases hp : env.playOk <;> cases p <;>
        simp [playAudio, hsup, hp, hu, List.mem_append]

theorem blobUrl_revoked_only_on_ended_witness :
    playingBlobState.audioElem = some
        { src := AudioSrc.objectUrl 0, volume := 4 / 5, currentTime := 2, paused := false } ∧
      playingBlobState.lastPayload = some (AudioPayload.blobData 5) ∧
      0 ∈ playingBlobState.liveUrls ∧
      (((fireEnded playingBlobState).liveUrls =
            playingBlobState.liveUrls.filter (fun v => v ≠ 0) ∧
          (fireEnded playingBlobState).voiceState = VState.idle) ∧
        (stopPlayback playingBlobState).liveUrls = playingBlobState.liveUrls ∧
        0 ∈ (playAudio cPlayEnv (AudioPayload.b64 "x") playingBlobState).liveUrls) :=
  ⟨rfl, rfl, by decide,
    ⟨((blobUrl_revoked_only_on_ended playingBlobState cPlayEnv (AudioPayload.b64 "x")
          { src := AudioSrc.objectUrl 0, volume := 4 / 5, currentTime := 2, paused := false }
          0 5).1 rfl rfl rfl),
      (blobUrl_revoked_only_on_ended playingBlobState cPlayEnv (AudioPayload.b64 "x")
          { src := AudioSrc.objectUrl 0, volume := 4 / 5, currentTime := 2, paused := false }
          0 5).2.1,
      ((blobUrl_revoked_only_on_ended playingBlobState cPlayEnv (AudioPayload.b64 "x")
          { src := AudioSrc.objectUrl 0, volume := 4 / 5, currentTime := 2, paused := false }
          0 5).2.2 (by decide))⟩⟩

/-! ## Claim C5: hardware release on the error path -/

/-- C5: the claim is right and the code is wrong.  When startRecording's try
block throws after the microphone stream has been acquired (here: getUserMedia
succeeds with track 7, then the dynamic RecordRTC import/construction
throws), the catch block only records the error string and the error state —
it stops no tracks, so the acquired microphone track stays open while the
Controller sits in the Error state, contradicting the stop()-equivalent
release the spec requires on every error path (the non-error path, and
unmount, do stop all tracks). -/
theorem startRecording_error_path_leaves_mic_open :
    (startRecording rtcFailEnv initialState).voiceState = VState.error ∧
      (startRecording rtcFailEnv initialState).micOpen = [7] ∧
      (startRecording rtcFailEnv initialState).stream = some { trackIds := [7] } := by
  refine ⟨rfl, rfl, rfl⟩

/-! ## Claim C6: volume change mid-flight -/

/-- C6 counterexample: start playback at the default volume 80 (the audio
element's volume becomes 80/100), then update the volume setting to 30 while
Playing: the active audio element's volume is still 80/100, not 30/100 —
refuting the claim that a settings update immediately changes the active
playback's audible volume. -/
theorem updateSettings_does_not_change_live_volume :
    ((updateSettings { volume := some 30 }
          (playAudio cPlayEnv (AudioPayload.b64 "hello") initialState)).audioElem.map
        (fun a => a.volume)) = some (80 / 100) ∧
      (updateSettings { volume := some 30 }
          (playAudio cPlayEnv (AudioPayload.b64 "hello") initialState)).settings.volume
        = 30 ∧
      (80 / 100 : ℚ) ≠ 30 / 100 := by
  refine ⟨rfl, rfl, by norm_num⟩

/-- C6 amended: useVoice.updateSettings mutates only the stored settings
record — the audio element (hence the in-flight playback's volume and
position) and the voice state are untouched — and the updated volume takes
effect only when the next playAudio call applies settings.volume/100 to the
audio element. -/
theorem updateSettings_only_stores_volume (p : SettingsPatch) (s : UseVoiceState)
    (v : ℚ) (env : PlayEnv) (payload : AudioPayload) :
    (updateSettings p s).audioElem = s.audioElem ∧
      (updateSettings p s).voiceState = s.voiceState ∧
      (p.volume = some v → (updateSettings p s).settings.volume = v) ∧
      (env.supported = true →
        ((playAudio env payload s).audioElem.map (fun a => a.volume)) =
          some (s.settings.volume / 100)) := by
  refine ⟨rfl, rfl, ?_, ?_⟩
  · intro h
    simp [updateSettings, applyPatch, h]
  · intro hsup
    cases hp : env.playOk <;> cases payload <;> simp [playAudio, hsup, hp]

theorem updateSettings_only_stores_volume_witness :
    (SettingsPatch.volume { volume := some 30 } = some 30) ∧
      cPlayEnv.supported = true ∧
      ((updateSettings { volume := some 30 } initialState).audioElem =
          initialState.audioElem ∧
        (updateSettings { volume := some 30 } initialState).voiceState =
          initialState.voiceState ∧
        ({ volume := some 30 : SettingsPatch }.volume = some 30 →
          (updateSettings { volume := some 30 } initialState).settings.volume = 30) ∧
        (cPlayEnv.supported = true →
          ((playAudio cPlayEnv (AudioPayload.b64 "x") initialState).audioElem.map
              (fun a => a.volume)) = some (initialState.settings.volume / 100))) :=
  ⟨rfl, rfl,
    updateSettings_only_stores_volume { volume := some 30 } initialState 30 cPlayEnv
      (AudioPayload.b64 "x")⟩

/-! ## Claim C8: stop with no active capture -/

/-- C8: stopRecording called with no recorder present resolves null before
touching anything: the returned state is exactly the input state (voice
state, audio level and every engine-held reference unchanged). -/
theorem stopRecording_no_recorder_noop (env : StopEnv) (s : UseVoiceState)
    (h : s.mediaRecorder = none) : stopRecording env s = (none, s) := by
  simp [stopRecording, h]

theorem stopRecording_no_recorder_noop_witness :
    initialState.mediaRecorder = none ∧
      stopRecording cStopEnv initialState = (none, initialState) :=
  ⟨rfl, stopRecording_no_recorder_noop cStopEnv initialState rfl⟩

/-! ## Claim C9: pause idempotence -/

/-- C9: pause is idempotent on the playback widget.  When playback is
already paused (no element loaded, or the element's paused flag set),
VoicePlayback.handlePause leaves the state exactly unchanged (pause() on a
paused HTMLMediaElement is a no-op that fires no pause event, and no error is
raised); consequently two consecutive pauses always equal one. -/
theorem handlePause_idempotent (s : PlaybackState) :
    (pausedState s = true → handlePause s = s) ∧
      handlePause (handlePause s) = handlePause s := by
  constructor
  · intro h
    cases ha : s.audioRef with
    | none => simp [handlePause, ha]
    | some a =>
        have hp : a.paused = true := by
          simpa [pausedState, ha] using h
        simp [handlePause, ha, hp]
  · cases ha : s.audioRef with
    | none => simp [handlePause, ha]
    | some a =>
        by_cases hp : a.paused
        · simp [handlePause, ha, hp]
        · simp [handlePause, ha, hp]

theorem handlePause_idempotent_witness :
    pausedState pausedPlayback = true ∧
      (handlePause pausedPlayback = pausedPlayback ∧
        handlePause (handlePause pausedPlayback) = handlePause pausedPlayback) :=
  ⟨rfl,
    (handlePause_idempotent pausedPlayback).1 rfl,
    (handlePause_idempotent pausedPlayback).2⟩

/-! ## Claim C10: REST wrappers never throw -/

/-- C10 counterexample: a wrapper receiving a 2xx response whose body fails
JSON parsing does not return null — its promise rejects to the caller,
because `return res.json()` inside the try block is not awaited, so the
parse rejection is adopted after the try/catch has exited.  The same holds
for listRecordings (which is supposed to degrade to the empty array). -/
theorem apiHelper_malformed_body_rejects :
    apiHelperRun (FetchRun.returns true JsonBody.malformed) = CallOutcome.rejects ∧
      apiHelperRun (FetchRun.returns true JsonBody.malformed) ≠ CallOutcome.retNull ∧
      listRecordingsRun (FetchRun.returns true JsonBody.malformed) =
        CallOutcome.rejects := by
  refine ⟨rfl, ?_, rfl⟩
  decide

/-- C10 amended: each REST wrapper returns null — listRecordings the empty
array — exactly when fetch itself rejects or the response is non-2xx; a 2xx
response with a well-formed body is returned parsed; but a 2xx response whose
body fails JSON parsing rejects to the caller (the unawaited
`return res.json()` escapes the catch). -/
theorem api_wrappers_null_on_failure (b : JsonBody) (v : Nat) :
    apiHelperRun FetchRun.throws = CallOutcome.retNull ∧
      apiHelperRun (FetchRun.returns false b) = CallOutcome.retNull ∧
      apiHelperRun (FetchRun.returns true (JsonBody.wellFormed v)) =
        CallOutcome.retJson v ∧
      apiHelperRun (FetchRun.returns true JsonBody.malformed) = CallOutcome.rejects ∧
      listRecordingsRun FetchRun.throws = CallOutcome.retEmptyList ∧
      listRecordingsRun (FetchRun.returns false b) = CallOutcome.retEmptyList ∧
      listRecordingsRun (FetchRun.returns true (JsonBody.wellFormed v)) =
        CallOutcome.retJson v ∧
      listRecordingsRun (FetchRun.returns true JsonBody.malformed) =
        CallOutcome.rejects :=
  ⟨rfl, rfl, rfl, rfl, rfl, rfl, rfl, rfl⟩

end HousingVoice
